import Mathlib

/-!
Shallow embedding of the scikit-rf VNA driver core: the Anritsu Lightning
37xxXD driver (`skrf/vi/vna/anritsu/l37xxxd.py`) and the Copper Mountain
driver (`skrf/vi/vna/copper_mountain/cmt.py`), together with the value
validators of `skrf.vi.validators` (modelled from the spec, since that file
is not part of the sources under review).

Stateful transport interaction is embedded as explicit state passing: each
driver operation maps a session state (device model, cached value format,
recorded wire trace) to a result together with the successor state.  Python
exceptions become `Except` results.
-/

namespace Skrf

/-- Wire-level actions, recorded in order of execution. -/
inductive Act where
  | wr (cmd : String)
  | qu (cmd : String)
  | quVals (cmd : String)
  | clr
  | wait
deriving DecidableEq, Repr

/-- The error taxonomy: Python exception classes raised by the drivers and
the error kinds named by the specification (`configurationError` is listed
so that spec-level statements about it can be expressed; no driver code
raises it). -/
inductive Err where
  | valueError
  | configurationError
  | validationError
  | protocolError
  | indexError
  | shapeError
  | attributeError
  | ioError
  | timeout
deriving DecidableEq, Repr

/-- The enum `skrf.vi.vna.ValuesFormat`: how bulk values travel on the wire. -/
inductive ValuesFormat where
  | ascii
  | binary32
  | binary64
deriving DecidableEq, Repr

/-- A complex measurement sample, real and imaginary part. -/
abbrev CNum := Int × Int

/-- The frequency unit of a sweep (the drivers always build sweeps in Hz). -/
inductive FreqUnit where
  | hz
deriving DecidableEq, Repr

/-- The `skrf.Frequency` value as the drivers build it: start, stop, point count, unit. -/
structure FrequencySweep where
  start : Nat
  stop : Nat
  npoints : Int
  unit : FreqUnit
deriving DecidableEq, Repr

/-! ### Decimal tokens

The wire protocol is textual; numeric arguments and responses are decimal
tokens.  `natTokenL`/`intTokenL` render values, `natParseL`/`intParseL`
read them back. -/

/-- The character of one decimal digit. -/
def digChar (d : Nat) : Char := Char.ofNat (48 + d)

/-- The numeric value of one decimal digit character. -/
def charDig (c : Char) : Nat := c.toNat - 48

/-- Whether a character is a decimal digit. -/
def isDig (c : Char) : Bool := 48 ≤ c.toNat && c.toNat ≤ 57

/-- Decimal rendering of a natural number, most significant digit first. -/
def natTokenL (n : Nat) : List Char :=
  if n = 0 then ['0'] else ((Nat.digits 10 n).map digChar).reverse

/-- Decimal rendering of a natural number as a string token. -/
def natToken (n : Nat) : String := String.mk (natTokenL n)

/-- The value of a most-significant-first digit list. -/
def digitsVal (cs : List Char) : Nat := Nat.ofDigits 10 ((cs.map charDig).reverse)

/-- Parse a non-empty all-digit token. -/
def natParseL (cs : List Char) : Option Nat :=
  if cs ≠ [] ∧ cs.all isDig then some (digitsVal cs) else none

/-- Decimal rendering of an integer, with a leading minus sign if negative. -/
def intTokenL (v : Int) : List Char :=
  if v < 0 then '-' :: natTokenL v.natAbs else natTokenL v.toNat

/-- Decimal rendering of an integer as a string token. -/
def intToken (v : Int) : String := String.mk (intTokenL v)

/-- Parse an optionally-signed decimal token. -/
def intParseL (cs : List Char) : Option Int :=
  if cs.head? = some '-' then (natParseL cs.tail).map (fun n => -(Int.ofNat n))
  else (natParseL cs).map Int.ofNat

theorem charDig_digChar {d : Nat} (hd : d < 10) : charDig (digChar d) = d := by
  interval_cases d <;> decide

theorem isDig_digChar {d : Nat} (hd : d < 10) : isDig (digChar d) = true := by
  interval_cases d <;> decide

theorem natTokenL_ne_nil (n : Nat) : natTokenL n ≠ [] := by
  unfold natTokenL
  split
  · simp
  · simpa using Nat.digits_ne_nil_iff_ne_zero.mpr (by assumption)

theorem natTokenL_all_digits (n : Nat) : ∀ c ∈ natTokenL n, isDig c = true := by
  intro c hc
  unfold natTokenL at hc
  split at hc
  · simp at hc
    subst hc
    decide
  · simp only [List.mem_reverse, List.mem_map] at hc
    obtain ⟨d, hd, rfl⟩ := hc
    exact isDig_digChar (Nat.digits_lt_base (by norm_num) hd)

theorem digitsVal_natTokenL (n : Nat) : digitsVal (natTokenL n) = n := by
  unfold natTokenL digitsVal
  split
  · subst n
    decide
  · rw [List.map_reverse, List.reverse_reverse, List.map_map]
    have h1 : ∀ d ∈ Nat.digits 10 n, (charDig ∘ digChar) d = id d := fun d hd =>
      charDig_digChar (Nat.digits_lt_base (by norm_num) hd)
    rw [List.map_congr_left h1, List.map_id, Nat.ofDigits_digits]

theorem natParseL_natTokenL (n : Nat) : natParseL (natTokenL n) = some n := by
  unfold natParseL
  rw [if_pos, digitsVal_natTokenL]
  refine ⟨natTokenL_ne_nil n, ?_⟩
  simpa [List.all_eq_true] using natTokenL_all_digits n

theorem natTokenL_head_ne_minus (n : Nat) : (natTokenL n).head? ≠ some '-' := by
  cases hl : natTokenL n with
  | nil => exact absurd hl (natTokenL_ne_nil n)
  | cons c cs =>
    have hc : isDig c = true := natTokenL_all_digits n c (hl ▸ List.mem_cons_self c cs)
    simp only [List.head?_cons, ne_eq, Option.some.injEq]
    intro h
    subst h
    simp [isDig] at hc

theorem intParseL_intTokenL (v : Int) : intParseL (intTokenL v) = some v := by
  unfold intTokenL
  split
  · show intParseL ('-' :: natTokenL v.natAbs) = some v
    simp only [intParseL, List.head?_cons, List.tail_cons, if_pos rfl,
      natParseL_natTokenL]
    simp only [ite_true, Option.map, Option.some.injEq, Int.ofNat_eq_natCast]
    omega
  · unfold intParseL
    rw [if_neg (natTokenL_head_ne_minus v.toNat), natParseL_natTokenL]
    simp only [Option.map, Option.some.injEq, Int.ofNat_eq_natCast]
    omega

/-! ### Validators

`skrf.vi.validators` is not among the sources under review; the five
validator kinds are modelled from the spec (section 4.1 and the data
model): Range, Enumeration, Boolean, Membership and FrequencyScale.
`encode` turns a native value into its wire token and fails outside the
declared domain; `decode` turns a wire token back into a native value and
fails on malformed tokens or tokens outside the domain. -/

/-- Modelled from the spec: `FreqValidator` (FrequencyScale, unit-aware
numeric).  Encoding renders a Hz value as its plain decimal token. -/
def freqEncodeL (n : Nat) : List Char := natTokenL n

/-- The multiplier of an optional frequency-unit token tail. -/
def unitMult (rest : List Char) : Option Nat :=
  if rest = [] ∨ rest = ['h', 'z'] then some 1
  else if rest = ['k', 'h', 'z'] then some 1000
  else if rest = ['m', 'h', 'z'] then some 1000000
  else if rest = ['g', 'h', 'z'] then some 1000000000
  else none

/-- Modelled from the spec: `FreqValidator` decoding, a decimal value with an
optional unit tail scaled to Hz. -/
def freqDecodeL (cs : List Char) : Option Nat :=
  match natParseL (cs.takeWhile isDig), unitMult (cs.dropWhile isDig) with
  | some n, some m => some (n * m)
  | _, _ => none

/-- Modelled from the spec: `IntValidator` (Range) configuration with optional
bounds, inclusive or exclusive as configured. -/
structure RangeCfg where
  lo : Option Int
  hi : Option Int
  incl : Bool
deriving DecidableEq, Repr

/-- Whether a value lies in a range validator's declared domain. -/
def rangeOk (cfg : RangeCfg) (v : Int) : Bool :=
  (match cfg.lo with
   | none => true
   | some lo => if cfg.incl then decide (lo ≤ v) else decide (lo < v)) &&
  (match cfg.hi with
   | none => true
   | some hi => if cfg.incl then decide (v ≤ hi) else decide (v < hi))

/-- Modelled from the spec: range-validator encoding. -/
def intEncode (cfg : RangeCfg) (v : Int) : Option (List Char) :=
  if rangeOk cfg v then some (intTokenL v) else none

/-- Modelled from the spec: range-validator decoding. -/
def intDecode (cfg : RangeCfg) (cs : List Char) : Option Int :=
  (intParseL cs).bind (fun v => if rangeOk cfg v then some v else none)

/-- Modelled from the spec: `SetValidator` (Membership) encoding over an
explicit allowed native-value set. -/
def setEncode (allowed : List Int) (v : Int) : Option (List Char) :=
  if v ∈ allowed then some (intTokenL v) else none

/-- Modelled from the spec: `SetValidator` (Membership) decoding. -/
def setDecode (allowed : List Int) (cs : List Char) : Option Int :=
  (intParseL cs).bind (fun v => if v ∈ allowed then some v else none)

/-- Modelled from the spec: `EnumValidator` encoding via an explicit
native-variant-to-token association list. -/
def enumEncode {α : Type} [DecidableEq α] (pairs : List (α × String)) (a : α) :
    Option String :=
  (pairs.find? (fun p => decide (p.1 = a))).map (fun p => p.2)

/-- Modelled from the spec: `EnumValidator` decoding via reverse lookup. -/
def enumDecode {α : Type} [DecidableEq α] (pairs : List (α × String)) (t : String) :
    Option α :=
  (pairs.find? (fun p => decide (p.2 = t))).map (fun p => p.1)

/-- Modelled from the spec: `BooleanValidator` configuration; the response
spellings and the setting spellings for each of true/false. -/
structure BoolCfg where
  trueResp : String
  falseResp : String
  trueSet : String
  falseSet : String
deriving DecidableEq, Repr

/-- Modelled from the spec: boolean encoding uses the setting spelling. -/
def boolEncode (cfg : BoolCfg) (b : Bool) : String :=
  if b then cfg.trueSet else cfg.falseSet

/-- Modelled from the spec: boolean decoding accepts either spelling of each
truth value and normalizes. -/
def boolDecode (cfg : BoolCfg) (t : String) : Option Bool :=
  if t = cfg.trueResp ∨ t = cfg.trueSet then some true
  else if t = cfg.falseResp ∨ t = cfg.falseSet then some false
  else none

theorem takeWhile_of_all {p : Char → Bool} {l : List Char}
    (h : ∀ c ∈ l, p c = true) : l.takeWhile p = l :=
  List.takeWhile_eq_self_iff.mpr h

theorem dropWhile_of_all {p : Char → Bool} {l : List Char}
    (h : ∀ c ∈ l, p c = true) : l.dropWhile p = [] :=
  List.dropWhile_eq_nil_iff.mpr h

theorem freqDecodeL_freqEncodeL (n : Nat) : freqDecodeL (freqEncodeL n) = some n := by
  unfold freqDecodeL freqEncodeL
  rw [takeWhile_of_all (natTokenL_all_digits n),
    dropWhile_of_all (natTokenL_all_digits n), natParseL_natTokenL]
  simp [unitMult]

theorem intDecode_intEncode {cfg : RangeCfg} {v : Int} (h : rangeOk cfg v = true) :
    (intEncode cfg v).bind (intDecode cfg) = some v := by
  unfold intEncode intDecode
  rw [if_pos h]
  simp [intParseL_intTokenL, h]

theorem setDecode_setEncode {allowed : List Int} {v : Int} (h : v ∈ allowed) :
    (setEncode allowed v).bind (setDecode allowed) = some v := by
  unfold setEncode setDecode
  rw [if_pos h]
  simp [intParseL_intTokenL, h]

theorem enumEncode_mem {α : Type} [DecidableEq α] {pairs : List (α × String)}
    {a : α} {t : String} (h : enumEncode pairs a = some t) :
    t ∈ pairs.map Prod.snd := by
  unfold enumEncode at h
  cases hf : pairs.find? (fun p => decide (p.1 = a)) with
  | none => rw [hf] at h; simp at h
  | some p =>
    rw [hf] at h
    simp only [Option.map, Option.some.injEq] at h
    subst h
    exact List.mem_map_of_mem Prod.snd (List.mem_of_find?_eq_some hf)

theorem enumDecode_enumEncode {α : Type} [DecidableEq α]
    (pairs : List (α × String)) (hs : (pairs.map Prod.snd).Nodup)
    (a : α) (ha : a ∈ pairs.map Prod.fst) :
    (enumEncode pairs a).bind (enumDecode pairs) = some a := by
  induction pairs with
  | nil => simp at ha
  | cons p ps ih =>
    obtain ⟨b, t⟩ := p
    by_cases hab : b = a
    · subst hab
      simp [enumEncode, enumDecode]
    · have henc : enumEncode ((b, t) :: ps) a = enumEncode ps a := by
        simp [enumEncode, List.find?, hab]
      have ha2 : a ∈ ps.map Prod.fst := by
        rcases List.mem_cons.mp ha with h1 | h1
        · exact absurd h1.symm hab
        · exact h1
      have hs2 : (ps.map Prod.snd).Nodup := (List.nodup_cons.mp hs).2
      have ih2 := ih hs2 ha2
      rw [henc]
      cases he : enumEncode ps a with
      | none => rw [he] at ih2; simp at ih2
      | some tok =>
        rw [he] at ih2
        have htok : tok ∈ ps.map Prod.snd := enumEncode_mem he
        have htne : t ≠ tok := by
          intro hh
          exact (List.nodup_cons.mp hs).1 (hh ▸ htok)
        have hdec : enumDecode ((b, t) :: ps) tok = enumDecode ps tok := by
          simp [enumDecode, List.find?, htne]
        simpa [hdec] using ih2

theorem boolDecode_boolEncode {cfg : BoolCfg} (b : Bool)
    (h1 : cfg.falseSet ≠ cfg.trueResp) (h2 : cfg.falseSet ≠ cfg.trueSet) :
    boolDecode cfg (boolEncode cfg b) = some b := by
  cases b with
  | true => simp [boolEncode, boolDecode]
  | false => simp [boolEncode, boolDecode, h1, h2]

/-! ### The measurement dataset

`skrf.Network` as used by the drivers: a frequency axis and a complex
tensor indexed (frequency, port out, port in).  The tensor is created
uninitialized (`np.empty`); `none` stands for a never-assigned entry.
Slice assignment carries numpy's error behaviour: an index outside the
port dimensions is an IndexError, a value list whose length differs from
the frequency axis is a broadcast (shape) error. -/

structure Ntwk where
  freq : FrequencySweep
  dim : Nat
  s : Nat → Nat → Nat → Option CNum

/-- The slice assignment `ntwk.s[:, i, j] = vals`: assign one (i, j) slice across all frequency
points, with numpy's bounds and shape checks. -/
def setSParam (nt : Ntwk) (i j : Nat) (vals : List CNum) : Except Err Ntwk :=
  if i < nt.dim ∧ j < nt.dim then
    if vals.length = nt.freq.npoints.toNat then
      .ok { nt with s := fun f a b => if a = i ∧ b = j then vals.get? f else nt.s f a b }
    else .error .shapeError
  else .error .indexError

/-! ### The Anritsu Lightning 37xxXD driver (`l37xxxd.py`)

The device side of the session is a small model: the tokens the instrument
returns for each query, its sweep-mode register, and the bulk data it
serves.  The TRS (trigger/restart) command's effect on the sweep-mode
register is left abstract as an arbitrary function `trsEff`, so theorems
about `sweep()` hold whatever the instrument does on a trigger. -/

inductive ASweepMode where
  | hold
  | single
  | normal
  | cont
deriving DecidableEq, Repr

/-- The wire token of each Anritsu sweep mode (enum `SweepMode` in the
source: HLD, SING, SWP, CTN). -/
def aModeTok : ASweepMode → String
  | .hold => "HLD"
  | .single => "SING"
  | .normal => "SWP"
  | .cont => "CTN"

/-- The association list of the source's `EnumValidator(SweepMode)`. -/
def aModePairs : List (ASweepMode × String) :=
  [(.hold, "HLD"), (.single, "SING"), (.normal, "SWP"), (.cont, "CTN")]

/-- The allowed point counts of the source's
`SetValidator([51, 101, 201, 401, 801, 1601])`. -/
def anritsuNpSet : List Int := [51, 101, 201, 401, 801, 1601]

/-- The Anritsu device model. -/
structure ADev where
  freqStartTok : String
  freqStopTok : String
  npointsTok : String
  fmtTok : String
  sweepMode : ASweepMode
  sdata1 : List CNum
  sdata2 : List CNum
  sdata2p : List (CNum × CNum × CNum × CNum)

/-- Device-state effect of a written command: sweep-mode tokens set the
sweep-mode register, TRS applies the abstract trigger effect, anything else
leaves the modelled observables unchanged. -/
def applyWriteA (trs : ASweepMode → ASweepMode) (d : ADev) (cmd : String) : ADev :=
  if cmd = "HLD" then { d with sweepMode := .hold }
  else if cmd = "SING" then { d with sweepMode := .single }
  else if cmd = "SWP" then { d with sweepMode := .normal }
  else if cmd = "CTN" then { d with sweepMode := .cont }
  else if cmd = "TRS" then { d with sweepMode := trs d.sweepMode }
  else d

/-- The device's one-line response to each query command. -/
def respondA (d : ADev) (cmd : String) : String :=
  if cmd = "STR?" then d.freqStartTok
  else if cmd = "STP?" then d.freqStopTok
  else if cmd = "ONP" then d.npointsTok
  else if cmd = "FMX?" then d.fmtTok
  else if cmd = "SWP?" then aModeTok d.sweepMode
  else ""

/-- The Anritsu session state: device model, cached `_values_fmt`, the
abstract TRS effect, and the recorded wire trace. -/
structure ASt where
  dev : ADev
  valuesFmt : ValuesFormat
  trsEff : ASweepMode → ASweepMode
  trace : List Act

/-- The transport write `self.write(cmd)`. -/
def awrite (cmd : String) (st : ASt) : ASt :=
  { st with dev := applyWriteA st.trsEff st.dev cmd, trace := st.trace ++ [Act.wr cmd] }

/-- The transport query `self.query(cmd)`. -/
def aquery (cmd : String) (st : ASt) : String × ASt :=
  (respondA st.dev cmd, { st with trace := st.trace ++ [Act.qu cmd] })

/-- The buffer clear `self._resource.clear()`. -/
def aclear (st : ASt) : ASt :=
  { st with trace := st.trace ++ [Act.clr] }

/-- Modelled from the spec: `VNA.query_values` is not under src/.  It issues
the command and reads one bulk payload; the Anritsu device serves the bulk
block selected by the command. -/
def aqueryVals1 (cmd : String) (st : ASt) : List CNum × ASt :=
  ((if cmd = "OS11C;" then st.dev.sdata1
    else if cmd = "OS22C;" then st.dev.sdata2 else []),
   { st with trace := st.trace ++ [Act.quVals cmd] })

/-- Modelled from the spec: the four-column bulk read of `OS2P;`. -/
def aqueryVals4 (st : ASt) : List (CNum × CNum × CNum × CNum) × ASt :=
  (st.dev.sdata2p, { st with trace := st.trace ++ [Act.quVals "OS2P;"] })

/-- The `freq_start` descriptor's getter: query `STR?`, decode with the
frequency validator. -/
def aFreqStartGet (st : ASt) : Except Err Nat × ASt :=
  let r := aquery "STR?" st
  match freqDecodeL r.1.data with
  | some v => (.ok v, r.2)
  | none => (.error .protocolError, r.2)

/-- The `freq_stop` descriptor's getter: query `STP?`. -/
def aFreqStopGet (st : ASt) : Except Err Nat × ASt :=
  let r := aquery "STP?" st
  match freqDecodeL r.1.data with
  | some v => (.ok v, r.2)
  | none => (.error .protocolError, r.2)

/-- The `npoints` descriptor's getter: query `ONP`, decode with the
membership validator over the allowed point counts. -/
def aNpointsGet (st : ASt) : Except Err Int × ASt :=
  let r := aquery "ONP" st
  match setDecode anritsuNpSet r.1.data with
  | some v => (.ok v, r.2)
  | none => (.error .protocolError, r.2)

/-- The `sweep_mode` descriptor's getter: query `SWP?`, decode with the
enumeration validator. -/
def aSweepModeGet (st : ASt) : Except Err ASweepMode × ASt :=
  let r := aquery "SWP?" st
  match enumDecode aModePairs r.1 with
  | some m => (.ok m, r.2)
  | none => (.error .protocolError, r.2)

/-- The `sweep_mode` descriptor's setter: encode with the enumeration
validator and write the token (the set template is just `<arg>`). -/
def aSweepModeSet (m : ASweepMode) (st : ASt) : Except Err Unit × ASt :=
  match enumEncode aModePairs m with
  | some tok => (.ok (), awrite tok st)
  | none => (.error .validationError, st)

/-- The `frequency` property getter: three queries, in the order the
`skrf.Frequency` constructor arguments are written (start, stop, npoints). -/
def aFrequencyGet (st : ASt) : Except Err FrequencySweep × ASt :=
  match aFreqStartGet st with
  | (.error e, st) => (.error e, st)
  | (.ok fstart, st) =>
    match aFreqStopGet st with
    | (.error e, st) => (.error e, st)
    | (.ok fstop, st) =>
      match aNpointsGet st with
      | (.error e, st) => (.error e, st)
      | (.ok np, st) => (.ok ⟨fstart, fstop, np, .hz⟩, st)

/-- The `frequency` property setter: write start, then stop, then the point
count; the point count must pass the membership validator before its write. -/
def aFrequencySet (f : FrequencySweep) (st : ASt) : Except Err Unit × ASt :=
  let st := awrite ("STR " ++ natToken f.start) st
  let st := awrite ("STP " ++ natToken f.stop) st
  match setEncode anritsuNpSet f.npoints with
  | some tok => (.ok (), awrite ("NP " ++ String.mk tok) st)
  | none => (.error .validationError, st)

/-- The `query_format` getter: one `FMX?` query; tokens 0/2/1 select
ASCII/BINARY_32/BINARY_64, any other token keeps the cached format. -/
def aQueryFormatGet (st : ASt) : ValuesFormat × ASt :=
  let r := aquery "FMX?" st
  let vf := if r.1 = "0" then ValuesFormat.ascii
    else if r.1 = "2" then ValuesFormat.binary32
    else if r.1 = "1" then ValuesFormat.binary64
    else r.2.valuesFmt
  (vf, { r.2 with valuesFmt := vf })

/-- The `query_format` setter: cache the format and write the single
corresponding command (FMA / FMC / FMB). -/
def aQueryFormatSet (fmt : ValuesFormat) (st : ASt) : ASt :=
  match fmt with
  | .ascii => awrite "FMA" { st with valuesFmt := .ascii }
  | .binary32 => awrite "FMC" { st with valuesFmt := .binary32 }
  | .binary64 => awrite "FMB" { st with valuesFmt := .binary64 }

/-- The method `sweep()`: clear the transport, capture the sweep mode, write TRS, then
write the captured mode back through the descriptor's setter. -/
def aSweep (st : ASt) : Except Err Unit × ASt :=
  let st := aclear st
  match aSweepModeGet st with
  | (.error e, st) => (.error e, st)
  | (.ok m, st) =>
    let st := awrite "TRS" st
    aSweepModeSet m st

/-- The body of `get_snp_network` after the `ports is None` default has been resolved:
read the frequency, allocate the empty tensor, sweep, then scatter the bulk
block per the requested port combination, or raise ValueError. -/
def aGetSnpPorts (ports : List Nat) (st : ASt) : Except Err Ntwk × ASt :=
  match aFrequencyGet st with
  | (.error e, st) => (.error e, st)
  | (.ok f, st) =>
    if f.npoints < 0 then (.error .valueError, st)
    else
      let nt : Ntwk := { freq := f, dim := ports.length, s := fun _ _ _ => none }
      match aSweep st with
      | (.error e, st) => (.error e, st)
      | (.ok _, st) =>
        if ports = [1] then
          let r := aqueryVals1 "OS11C;" st
          match setSParam nt 0 0 r.1 with
          | .ok nt => (.ok nt, r.2)
          | .error e => (.error e, r.2)
        else if ports = [2] then
          let r := aqueryVals1 "OS22C;" st
          match setSParam nt 1 1 r.1 with
          | .ok nt => (.ok nt, r.2)
          | .error e => (.error e, r.2)
        else if ports = [1, 2] ∨ ports = [2, 1] then
          let r := aqueryVals4 st
          let raw := r.1
          match setSParam nt 0 0 (raw.map (fun v => v.1)) with
          | .error e => (.error e, r.2)
          | .ok nt =>
            match setSParam nt 1 1 (raw.map (fun v => v.2.1)) with
            | .error e => (.error e, r.2)
            | .ok nt =>
              match setSParam nt 0 1 (raw.map (fun v => v.2.2.1)) with
              | .error e => (.error e, r.2)
              | .ok nt =>
                match setSParam nt 1 0 (raw.map (fun v => v.2.2.2)) with
                | .error e => (.error e, r.2)
                | .ok nt => (.ok nt, r.2)
        else (.error .valueError, st)

/-- The method `get_snp_network(ports)`: a `None` ports argument defaults to the full
pair (1, 2). -/
def aGetSnp (ports : Option (List Nat)) (st : ASt) : Except Err Ntwk × ASt :=
  aGetSnpPorts (ports.getD [1, 2]) st

/-- The method `get_sdata()`: defined in the source as `get_snp_network((1,))`. -/
def aGetSdata (st : ASt) : Except Err Ntwk × ASt :=
  aGetSnp (some [1]) st

/-! ### The Copper Mountain driver (`cmt.py`)

One channel (cnum = 1) exists, as created in `__init__`.  The device model
keeps the format register, the trigger-source register and the continuous
sweep flag, all updated by the corresponding writes, plus the response
tokens for each query.  The environment decides whether each
`wait_for_complete` finishes within budget and whether the bulk value
query succeeds. -/

/-- The CMT device model. -/
structure CDev where
  portCountTok : String
  activeChTok : String
  fmtTok : String
  freqStartTok : String
  freqStopTok : String
  npointsTok : String
  trigSrc : String
  contMode : Bool
  sdat : List CNum

/-- Device-state effect of a written command. -/
def applyWriteC (d : CDev) (cmd : String) : CDev :=
  if cmd = "FORM:DATA ASC" then { d with fmtTok := "ASC" }
  else if cmd = "FORM:DATA REA32" then { d with fmtTok := "REAL32" }
  else if cmd = "FORM:DATA REAL" then { d with fmtTok := "REAL" }
  else if cmd = "TRIG:SOUR BUS" then { d with trigSrc := "BUS" }
  else if cmd = "TRIG:SOUR INT" then { d with trigSrc := "INT" }
  else if cmd = "INIT:CONT 1" then { d with contMode := true }
  else if cmd = "INIT:CONT 0" then { d with contMode := false }
  else d

/-- The device's one-line response to each query command. -/
def respondC (d : CDev) (cmd : String) : String :=
  if cmd = "SERV:PORT:COUN?" then d.portCountTok
  else if cmd = "SERV:CHAN:ACT?" then d.activeChTok
  else if cmd = "FORM:DATA?" then d.fmtTok
  else if cmd = "SENS1:FREQ:STAR?" then d.freqStartTok
  else if cmd = "SENS1:FREQ:STOP?" then d.freqStopTok
  else if cmd = "SENS1:SWE:POIN?" then d.npointsTok
  else if cmd = "INIT:CONT?" then (if d.contMode then "1" else "0")
  else ""

/-- The CMT session state: device model, cached `_values_fmt`, the
environment's wait/bulk-query outcomes, and the recorded wire trace. -/
structure CSt where
  dev : CDev
  valuesFmt : ValuesFormat
  waitOk : Nat → Bool
  waitIdx : Nat
  qvOk : Bool
  trace : List Act

/-- The transport write `self.write(cmd)`. -/
def cwrite (cmd : String) (st : CSt) : CSt :=
  { st with dev := applyWriteC st.dev cmd, trace := st.trace ++ [Act.wr cmd] }

/-- The transport query `self.query(cmd)`. -/
def cquery (cmd : String) (st : CSt) : String × CSt :=
  (respondC st.dev cmd, { st with trace := st.trace ++ [Act.qu cmd] })

/-- The buffer clear `self.parent._resource.clear()`. -/
def cclear (st : CSt) : CSt :=
  { st with trace := st.trace ++ [Act.clr] }

/-- Modelled from the spec: `VNA.wait_for_complete` is not under src/.  A
bounded wait for operation completion that fails with Timeout when its
budget is exceeded; the environment decides each wait's outcome. -/
def cWait (st : CSt) : Except Err Unit × CSt :=
  let ok := st.waitOk st.waitIdx
  ((if ok then .ok () else .error .timeout),
   { st with waitIdx := st.waitIdx + 1, trace := st.trace ++ [Act.wait] })

/-- Modelled from the spec: `VNA.query_values` is not under src/.  It issues
the command and reads one complex-valued bulk payload; the environment
decides whether the transfer succeeds. -/
def cQueryVals (cmd : String) (st : CSt) : Except Err (List CNum) × CSt :=
  ((if st.qvOk then .ok st.dev.sdat else .error .ioError),
   { st with trace := st.trace ++ [Act.quVals cmd] })

/-- Classification of a `FORM:DATA?` response token; an unrecognized token
keeps the cached format. -/
def cFmtClassify (tok : String) (cached : ValuesFormat) : ValuesFormat :=
  if tok = "ASC" then .ascii
  else if tok = "REAL32" then .binary32
  else if tok = "REAL" then .binary64
  else cached

/-- The `query_format` getter: one `FORM:DATA?` query, mapped through
`cFmtClassify`; the result is cached. -/
def cQueryFormatGet (st : CSt) : ValuesFormat × CSt :=
  let r := cquery "FORM:DATA?" st
  let vf := cFmtClassify r.1 r.2.valuesFmt
  (vf, { r.2 with valuesFmt := vf })

/-- The `query_format` setter: cache the format, then one write for ASCII or
the byte-order write followed by the width write for the binary formats. -/
def cQueryFormatSet (fmt : ValuesFormat) (st : CSt) : CSt :=
  match fmt with
  | .ascii => cwrite "FORM:DATA ASC" { st with valuesFmt := .ascii }
  | .binary32 => cwrite "FORM:DATA REA32" (cwrite "FORM:BORD SWAP" { st with valuesFmt := .binary32 })
  | .binary64 => cwrite "FORM:DATA REAL" (cwrite "FORM:BORD SWAP" { st with valuesFmt := .binary64 })

/-- The `nports` property for the default model: query the port count and
parse it (`int(...)` raises ValueError on a malformed token). -/
def cNports (st : CSt) : Except Err Nat × CSt :=
  let r := cquery "SERV:PORT:COUN?" st
  match natParseL r.1.data with
  | some n => (.ok n, r.2)
  | none => (.error .valueError, r.2)

/-- The assignment `self.parent.active_channel = self` for channel 1: the setter first reads
the active-channel property (one query plus `int(...)`); when the active
channel number equals the channel's own cnum nothing is written, and when it
names a channel that does not exist the getter returns `None` and the
setter's `.cnum` access raises AttributeError. -/
def cActiveChannelSet (st : CSt) : Except Err Unit × CSt :=
  let r := cquery "SERV:CHAN:ACT?" st
  match natParseL r.1.data with
  | none => (.error .valueError, r.2)
  | some n =>
    if n = 1 then (.ok (), r.2)
    else (.error .attributeError, r.2)

/-- The channel's `freq_start` getter: query and decode with the frequency
validator. -/
def cFreqStartGet (st : CSt) : Except Err Nat × CSt :=
  let r := cquery "SENS1:FREQ:STAR?" st
  match freqDecodeL r.1.data with
  | some v => (.ok v, r.2)
  | none => (.error .protocolError, r.2)

/-- The channel's `freq_stop` getter. -/
def cFreqStopGet (st : CSt) : Except Err Nat × CSt :=
  let r := cquery "SENS1:FREQ:STOP?" st
  match freqDecodeL r.1.data with
  | some v => (.ok v, r.2)
  | none => (.error .protocolError, r.2)

/-- The channel's unbounded `IntValidator()` configuration for `npoints`. -/
def cmtNpRange : RangeCfg := ⟨none, none, true⟩

/-- The channel's `npoints` getter: query and decode with the unbounded
integer validator. -/
def cNpointsGet (st : CSt) : Except Err Int × CSt :=
  let r := cquery "SENS1:SWE:POIN?" st
  match intDecode cmtNpRange r.1.data with
  | some v => (.ok v, r.2)
  | none => (.error .protocolError, r.2)

/-- The `frequency` property getter: three queries in constructor-argument
order (start, stop, npoints). -/
def cFrequencyGet (st : CSt) : Except Err FrequencySweep × CSt :=
  match cFreqStartGet st with
  | (.error e, st) => (.error e, st)
  | (.ok fstart, st) =>
    match cFreqStopGet st with
    | (.error e, st) => (.error e, st)
    | (.ok fstop, st) =>
      match cNpointsGet st with
      | (.error e, st) => (.error e, st)
      | (.ok np, st) => (.ok ⟨fstart, fstop, np, .hz⟩, st)

/-- The `frequency` property setter: write start, then stop, then the point
count through each descriptor. -/
def cFrequencySet (f : FrequencySweep) (st : CSt) : Except Err Unit × CSt :=
  let st := cwrite ("SENS1:FREQ:STAR " ++ natToken f.start) st
  let st := cwrite ("SENS1:FREQ:STOP " ++ natToken f.stop) st
  match intEncode cmtNpRange f.npoints with
  | some tok => (.ok (), cwrite ("SENS1:SWE:POIN " ++ String.mk tok) st)
  | none => (.error .validationError, st)

/-- The method `Channel.sweep()`: clear the transport, write the single trigger, then
wait for completion. -/
def cSweep (st : CSt) : Except Err Unit × CSt :=
  let st := cclear st
  let st := cwrite "TRIG:SING" st
  cWait st

/-- Resolution of the `ports` default: `None` queries the port count and
takes all ports 1..nports. -/
def cResolvePorts (ports : Option (List Nat)) (st : CSt) :
    Except Err (List Nat) × CSt :=
  match ports with
  | some ps => (.ok ps, st)
  | none =>
    match cNports st with
    | (.ok n, st) => (.ok ((List.range n).map (fun k => k + 1)), st)
    | (.error e, st) => (.error e, st)

/-- The method `Channel.get_snp_network(ports)`, step for step: resolve ports; capture
the format; switch to BINARY_64; the debug print of `query_format` issues a
further format query; make the channel active; read the frequency; allocate
the empty tensor; set the trigger source to BUS; sweep; bulk-query the raw
scattering block; wait; restore the captured format; restore the internal
trigger source; return the network.  The raw block is never written into
the tensor, mirroring the source. -/
def cGetSnp (ports : Option (List Nat)) (st : CSt) : Except Err Ntwk × CSt :=
  match cResolvePorts ports st with
  | (.error e, st) => (.error e, st)
  | (.ok plist, st) =>
    let r0 := cQueryFormatGet st
    let origFmt := r0.1
    let st := cQueryFormatSet .binary64 r0.2
    let r1 := cQueryFormatGet st
    match cActiveChannelSet r1.2 with
    | (.error e, st) => (.error e, st)
    | (.ok _, st) =>
      match cFrequencyGet st with
      | (.error e, st) => (.error e, st)
      | (.ok f, st) =>
        if f.npoints < 0 then (.error .valueError, st)
        else
          let nt : Ntwk := { freq := f, dim := plist.length, s := fun _ _ _ => none }
          let st := cwrite "TRIG:SOUR BUS" st
          match cSweep st with
          | (.error e, st) => (.error e, st)
          | (.ok _, st) =>
            match cQueryVals "CALC1:DATA:SDAT?" st with
            | (.error e, st) => (.error e, st)
            | (.ok _raw, st) =>
              match cWait st with
              | (.error e, st) => (.error e, st)
              | (.ok _, st) =>
                let st := cQueryFormatSet origFmt st
                let st := cwrite "TRIG:SOUR INT" st
                (.ok nt, st)

/-! ### Run lemmas

Symbolic executions of the driver operations used by several claims. -/

theorem enumEncode_aModePairs (m : ASweepMode) :
    enumEncode aModePairs m = some (aModeTok m) := by
  cases m <;> rfl

theorem enumDecode_aModePairs (m : ASweepMode) :
    enumDecode aModePairs (aModeTok m) = some m := by
  cases m <;> rfl

theorem aSweep_run (st : ASt) :
    aSweep st = (.ok (), { st with trace := st.trace ++
      [Act.clr, Act.qu "SWP?", Act.wr "TRS", Act.wr (aModeTok st.dev.sweepMode)] }) := by
  obtain ⟨⟨t1, t2, t3, t4, m, s1, s2, s3⟩, vf, trs, tr⟩ := st
  cases m <;>
    simp [aSweep, aclear, aSweepModeGet, aquery, respondA, aModeTok,
      enumDecode, aModePairs, List.find?, aSweepModeSet, enumEncode, awrite,
      applyWriteA]

theorem setDecode_intToken {np : Int} (hnp : np ∈ anritsuNpSet) :
    setDecode anritsuNpSet (intToken np).data = some np := by
  unfold setDecode
  rw [show (intToken np).data = intTokenL np from rfl, intParseL_intTokenL]
  simp [hnp]

theorem aFrequencyGet_run (st : ASt) (n1 n2 : Nat) (np : Int)
    (h1 : st.dev.freqStartTok = natToken n1)
    (h2 : st.dev.freqStopTok = natToken n2)
    (h3 : st.dev.npointsTok = intToken np)
    (hnp : np ∈ anritsuNpSet) :
    aFrequencyGet st = (.ok ⟨n1, n2, np, .hz⟩, { st with trace := st.trace ++
      [Act.qu "STR?", Act.qu "STP?", Act.qu "ONP"] }) := by
  have e1 : freqDecodeL (natToken n1).data = some n1 := freqDecodeL_freqEncodeL n1
  have e2 : freqDecodeL (natToken n2).data = some n2 := freqDecodeL_freqEncodeL n2
  have e3 := setDecode_intToken hnp
  obtain ⟨⟨t1, t2, t3, t4, m, s1, s2, s3⟩, vf, trs, tr⟩ := st
  simp only at h1 h2 h3
  subst h1 h2 h3
  simp [aFrequencyGet, aFreqStartGet, aFreqStopGet, aNpointsGet, aquery,
    respondA, e1, e2, e3]

theorem anritsuNpSet_nonneg {np : Int} (hnp : np ∈ anritsuNpSet) : ¬ np < 0 := by
  simp [anritsuNpSet] at hnp
  rcases hnp with h | h | h | h | h | h <;> omega

theorem aGetSnpPorts_invalid_run (st : ASt) (ports : List Nat) (n1 n2 : Nat)
    (np : Int)
    (h1 : st.dev.freqStartTok = natToken n1)
    (h2 : st.dev.freqStopTok = natToken n2)
    (h3 : st.dev.npointsTok = intToken np)
    (hnp : np ∈ anritsuNpSet)
    (hp1 : ports ≠ [1]) (hp2 : ports ≠ [2])
    (hp3 : ports ≠ [1, 2]) (hp4 : ports ≠ [2, 1]) :
    aGetSnpPorts ports st = (.error .valueError, { st with trace := st.trace ++
      [Act.qu "STR?", Act.qu "STP?", Act.qu "ONP", Act.clr, Act.qu "SWP?",
       Act.wr "TRS", Act.wr (aModeTok st.dev.sweepMode)] }) := by
  rw [aGetSnpPorts, aFrequencyGet_run st n1 n2 np h1 h2 h3 hnp]
  simp only [if_neg (anritsuNpSet_nonneg hnp)]
  rw [aSweep_run]
  simp [hp1, hp2, hp3, hp4]

theorem intDecode_cmt_intToken (mp : Int) :
    intDecode cmtNpRange (intToken mp).data = some mp := by
  unfold intDecode
  rw [show (intToken mp).data = intTokenL mp from rfl, intParseL_intTokenL]
  simp [rangeOk, cmtNpRange]

theorem cFrequencyGet_run (st : CSt) (m1 m2 : Nat) (mp : Int)
    (h1 : st.dev.freqStartTok = natToken m1)
    (h2 : st.dev.freqStopTok = natToken m2)
    (h3 : st.dev.npointsTok = intToken mp) :
    cFrequencyGet st = (.ok ⟨m1, m2, mp, .hz⟩, { st with trace := st.trace ++
      [Act.qu "SENS1:FREQ:STAR?", Act.qu "SENS1:FREQ:STOP?",
       Act.qu "SENS1:SWE:POIN?"] }) := by
  have e1 : freqDecodeL (natToken m1).data = some m1 := freqDecodeL_freqEncodeL m1
  have e2 : freqDecodeL (natToken m2).data = some m2 := freqDecodeL_freqEncodeL m2
  have e3 := intDecode_cmt_intToken mp
  obtain ⟨⟨u1, u2, u3, u4, u5, u6, u7, u8, u9⟩, vf, wok, widx, qv, tr⟩ := st
  simp only at h1 h2 h3
  subst h1 h2 h3
  simp [cFrequencyGet, cFreqStartGet, cFreqStopGet, cNpointsGet, cquery,
    respondC, e1, e2, e3]

theorem cGetSnp_ok_run (st : CSt) (ports : List Nat) (m1 m2 : Nat) (mp : Int)
    (hch : st.dev.activeChTok = natToken 1)
    (hf : st.dev.fmtTok = "ASC")
    (h1 : st.dev.freqStartTok = natToken m1)
    (h2 : st.dev.freqStopTok = natToken m2)
    (h3 : st.dev.npointsTok = intToken mp)
    (hmp : 0 ≤ mp)
    (hw0 : st.waitOk st.waitIdx = true)
    (hw1 : st.waitOk (st.waitIdx + 1) = true)
    (hqv : st.qvOk = true) :
    cGetSnp (some ports) st =
      (.ok { freq := ⟨m1, m2, mp, .hz⟩, dim := ports.length,
             s := fun _ _ _ => none },
       { st with
          dev := { st.dev with trigSrc := "INT" },
          valuesFmt := .ascii,
          waitIdx := st.waitIdx + 2,
          trace := st.trace ++
            [Act.qu "FORM:DATA?", Act.wr "FORM:BORD SWAP",
             Act.wr "FORM:DATA REAL", Act.qu "FORM:DATA?",
             Act.qu "SERV:CHAN:ACT?", Act.qu "SENS1:FREQ:STAR?",
             Act.qu "SENS1:FREQ:STOP?", Act.qu "SENS1:SWE:POIN?",
             Act.wr "TRIG:SOUR BUS", Act.clr, Act.wr "TRIG:SING", Act.wait,
             Act.quVals "CALC1:DATA:SDAT?", Act.wait,
             Act.wr "FORM:DATA ASC", Act.wr "TRIG:SOUR INT"] }) := by
  have e1 : freqDecodeL (natToken m1).data = some m1 := freqDecodeL_freqEncodeL m1
  have e2 : freqDecodeL (natToken m2).data = some m2 := freqDecodeL_freqEncodeL m2
  have e3 := intDecode_cmt_intToken mp
  have ech : natParseL (natToken 1).data = some 1 := natParseL_natTokenL 1
  have hmp2 : ¬ mp < 0 := by omega
  obtain ⟨⟨u1, u2, u3, u4, u5, u6, u7, u8, u9⟩, vf, wok, widx, qv, tr⟩ := st
  simp only at hch hf h1 h2 h3 hw0 hw1 hqv
  subst hch hf h1 h2 h3 hqv
  simp [cGetSnp, cResolvePorts, cQueryFormatGet, cquery, respondC,
    cFmtClassify, cQueryFormatSet, cwrite, applyWriteC, cActiveChannelSet,
    ech, cFrequencyGet, cFreqStartGet, cFreqStopGet, cNpointsGet, e1, e2, e3,
    hmp2, cSweep, cclear, cWait, cQueryVals, hw0, hw1]

theorem cGetSnp_qvfail_run (st : CSt) (ports : List Nat) (m1 m2 : Nat) (mp : Int)
    (hch : st.dev.activeChTok = natToken 1)
    (h1 : st.dev.freqStartTok = natToken m1)
    (h2 : st.dev.freqStopTok = natToken m2)
    (h3 : st.dev.npointsTok = intToken mp)
    (hmp : 0 ≤ mp)
    (hw0 : st.waitOk st.waitIdx = true)
    (hqv : st.qvOk = false) :
    cGetSnp (some ports) st =
      (.error .ioError,
       { st with
          dev := { st.dev with fmtTok := "REAL", trigSrc := "BUS" },
          valuesFmt := .binary64,
          waitIdx := st.waitIdx + 1,
          trace := st.trace ++
            [Act.qu "FORM:DATA?", Act.wr "FORM:BORD SWAP",
             Act.wr "FORM:DATA REAL", Act.qu "FORM:DATA?",
             Act.qu "SERV:CHAN:ACT?", Act.qu "SENS1:FREQ:STAR?",
             Act.qu "SENS1:FREQ:STOP?", Act.qu "SENS1:SWE:POIN?",
             Act.wr "TRIG:SOUR BUS", Act.clr, Act.wr "TRIG:SING", Act.wait,
             Act.quVals "CALC1:DATA:SDAT?"] }) := by
  have e1 : freqDecodeL (natToken m1).data = some m1 := freqDecodeL_freqEncodeL m1
  have e2 : freqDecodeL (natToken m2).data = some m2 := freqDecodeL_freqEncodeL m2
  have e3 := intDecode_cmt_intToken mp
  have ech : natParseL (natToken 1).data = some 1 := natParseL_natTokenL 1
  have hmp2 : ¬ mp < 0 := by omega
  obtain ⟨⟨u1, u2, u3, u4, u5, u6, u7, u8, u9⟩, vf, wok, widx, qv, tr⟩ := st
  simp only at hch h1 h2 h3 hw0 hqv
  subst hch h1 h2 h3 hqv
  simp [cGetSnp, cResolvePorts, cQueryFormatGet, cquery, respondC,
    cFmtClassify, cQueryFormatSet, cwrite, applyWriteC, cActiveChannelSet,
    ech, cFrequencyGet, cFreqStartGet, cFreqStopGet, cNpointsGet, e1, e2, e3,
    hmp2, cSweep, cclear, cWait, cQueryVals, hw0]

/-- The writes emitted when a value format is selected on the CMT driver. -/
def fmtSetWrites : ValuesFormat → List Act
  | .ascii => [Act.wr "FORM:DATA ASC"]
  | .binary32 => [Act.wr "FORM:BORD SWAP", Act.wr "FORM:DATA REA32"]
  | .binary64 => [Act.wr "FORM:BORD SWAP", Act.wr "FORM:DATA REAL"]

/-- The CMT device's format-register token after a format is selected. -/
def fmtDevTok : ValuesFormat → String
  | .ascii => "ASC"
  | .binary32 => "REAL32"
  | .binary64 => "REAL"

theorem cFmtClassify_fmtDevTok (fmt : ValuesFormat) (cached : ValuesFormat) :
    cFmtClassify (fmtDevTok fmt) cached = fmt := by
  cases fmt <;> rfl

theorem cGetSnp_ok_run_gen (st : CSt) (ports : List Nat) (m1 m2 : Nat)
    (mp : Int)
    (hch : st.dev.activeChTok = natToken 1)
    (h1 : st.dev.freqStartTok = natToken m1)
    (h2 : st.dev.freqStopTok = natToken m2)
    (h3 : st.dev.npointsTok = intToken mp)
    (hmp : 0 ≤ mp)
    (hw0 : st.waitOk st.waitIdx = true)
    (hw1 : st.waitOk (st.waitIdx + 1) = true)
    (hqv : st.qvOk = true) :
    cGetSnp (some ports) st =
      (.ok { freq := ⟨m1, m2, mp, .hz⟩, dim := ports.length,
             s := fun _ _ _ => none },
       { st with
          dev := { st.dev with
            fmtTok := fmtDevTok (cFmtClassify st.dev.fmtTok st.valuesFmt),
            trigSrc := "INT" },
          valuesFmt := cFmtClassify st.dev.fmtTok st.valuesFmt,
          waitIdx := st.waitIdx + 2,
          trace := st.trace ++
            [Act.qu "FORM:DATA?", Act.wr "FORM:BORD SWAP",
             Act.wr "FORM:DATA REAL", Act.qu "FORM:DATA?",
             Act.qu "SERV:CHAN:ACT?", Act.qu "SENS1:FREQ:STAR?",
             Act.qu "SENS1:FREQ:STOP?", Act.qu "SENS1:SWE:POIN?",
             Act.wr "TRIG:SOUR BUS", Act.clr, Act.wr "TRIG:SING", Act.wait,
             Act.quVals "CALC1:DATA:SDAT?", Act.wait] ++
            fmtSetWrites (cFmtClassify st.dev.fmtTok st.valuesFmt) ++
            [Act.wr "TRIG:SOUR INT"] }) := by
  have e1 : freqDecodeL (natToken m1).data = some m1 := freqDecodeL_freqEncodeL m1
  have e2 : freqDecodeL (natToken m2).data = some m2 := freqDecodeL_freqEncodeL m2
  have e3 := intDecode_cmt_intToken mp
  have ech : natParseL (natToken 1).data = some 1 := natParseL_natTokenL 1
  have hmp2 : ¬ mp < 0 := by omega
  obtain ⟨⟨u1, u2, u3, u4, u5, u6, u7, u8, u9⟩, vf, wok, widx, qv, tr⟩ := st
  simp only at hch h1 h2 h3 hw0 hw1 hqv
  subst hch h1 h2 h3 hqv
  cases horig : cFmtClassify u3 vf <;>
    simp [cGetSnp, cResolvePorts, cQueryFormatGet, cquery, respondC,
      horig, cQueryFormatSet, cwrite, applyWriteC, cActiveChannelSet, ech,
      cFrequencyGet, cFreqStartGet, cFreqStopGet, cNpointsGet, e1, e2, e3,
      hmp2, cSweep, cclear, cWait, cQueryVals, hw0, hw1, fmtSetWrites,
      fmtDevTok]

theorem cGetSnp_waitfail_run (st : CSt) (ports : List Nat) (m1 m2 : Nat)
    (mp : Int)
    (hch : st.dev.activeChTok = natToken 1)
    (h1 : st.dev.freqStartTok = natToken m1)
    (h2 : st.dev.freqStopTok = natToken m2)
    (h3 : st.dev.npointsTok = intToken mp)
    (hmp : 0 ≤ mp)
    (hw0 : st.waitOk st.waitIdx = false) :
    cGetSnp (some ports) st =
      (.error .timeout,
       { st with
          dev := { st.dev with fmtTok := "REAL", trigSrc := "BUS" },
          valuesFmt := .binary64,
          waitIdx := st.waitIdx + 1,
          trace := st.trace ++
            [Act.qu "FORM:DATA?", Act.wr "FORM:BORD SWAP",
             Act.wr "FORM:DATA REAL", Act.qu "FORM:DATA?",
             Act.qu "SERV:CHAN:ACT?", Act.qu "SENS1:FREQ:STAR?",
             Act.qu "SENS1:FREQ:STOP?", Act.qu "SENS1:SWE:POIN?",
             Act.wr "TRIG:SOUR BUS", Act.clr, Act.wr "TRIG:SING",
             Act.wait] }) := by
  have e1 : freqDecodeL (natToken m1).data = some m1 := freqDecodeL_freqEncodeL m1
  have e2 : freqDecodeL (natToken m2).data = some m2 := freqDecodeL_freqEncodeL m2
  have e3 := intDecode_cmt_intToken mp
  have ech : natParseL (natToken 1).data = some 1 := natParseL_natTokenL 1
  have hmp2 : ¬ mp < 0 := by omega
  obtain ⟨⟨u1, u2, u3, u4, u5, u6, u7, u8, u9⟩, vf, wok, widx, qv, tr⟩ := st
  simp only at hch h1 h2 h3 hw0
  subst hch h1 h2 h3
  simp [cGetSnp, cResolvePorts, cQueryFormatGet, cquery, respondC,
    cFmtClassify, cQueryFormatSet, cwrite, applyWriteC, cActiveChannelSet,
    ech, cFrequencyGet, cFreqStartGet, cFreqStopGet, cNpointsGet, e1, e2, e3,
    hmp2, cSweep, cclear, cWait, cQueryVals, hw0]

theorem aFreqStartGet_fmt (st : ASt) : (aFreqStartGet st).2.valuesFmt = st.valuesFmt := by
  unfold aFreqStartGet aquery
  dsimp only
  split <;> rfl

theorem aFreqStopGet_fmt (st : ASt) : (aFreqStopGet st).2.valuesFmt = st.valuesFmt := by
  unfold aFreqStopGet aquery
  dsimp only
  split <;> rfl

theorem aNpointsGet_fmt (st : ASt) : (aNpointsGet st).2.valuesFmt = st.valuesFmt := by
  unfold aNpointsGet aquery
  dsimp only
  split <;> rfl

theorem aFrequencyGet_fmt (st : ASt) : (aFrequencyGet st).2.valuesFmt = st.valuesFmt := by
  unfold aFrequencyGet
  rcases h1 : aFreqStartGet st with ⟨r1, st1⟩
  have e1 : st1.valuesFmt = st.valuesFmt := by
    have h := aFreqStartGet_fmt st
    rw [h1] at h
    exact h
  cases r1 with
  | error e => exact e1
  | ok v =>
    dsimp only
    rcases h2 : aFreqStopGet st1 with ⟨r2, st2⟩
    have e2 : st2.valuesFmt = st1.valuesFmt := by
      have h := aFreqStopGet_fmt st1
      rw [h2] at h
      exact h
    cases r2 with
    | error e => exact e2.trans e1
    | ok v2 =>
      dsimp only
      rcases h3 : aNpointsGet st2 with ⟨r3, st3⟩
      have e3 : st3.valuesFmt = st2.valuesFmt := by
        have h := aNpointsGet_fmt st2
        rw [h3] at h
        exact h
      cases r3 with
      | error e => exact (e3.trans e2).trans e1
      | ok v3 => exact (e3.trans e2).trans e1

theorem aGetSnpPorts_fmt (ports : List Nat) (st : ASt) :
    (aGetSnpPorts ports st).2.valuesFmt = st.valuesFmt := by
  unfold aGetSnpPorts
  rcases h1 : aFrequencyGet st with ⟨r1, st1⟩
  have e1 : st1.valuesFmt = st.valuesFmt := by
    have h := aFrequencyGet_fmt st
    rw [h1] at h
    exact h
  cases r1 with
  | error e => exact e1
  | ok f =>
    dsimp only
    by_cases hneg : f.npoints < 0
    · rw [if_pos hneg]
      exact e1
    · rw [if_neg hneg]
      rw [aSweep_run st1]
      dsimp only
      repeat' split
      all_goals exact e1


/-! ### Concrete devices and sessions -/

/-- The error kind of a pipeline result, if any. -/
def errOf : Except Err Ntwk → Option Err
  | .error e => some e
  | .ok _ => none

/-- Whether a pipeline result is a success. -/
def isOkE : Except Err Ntwk → Bool
  | .ok _ => true
  | .error _ => false

/-- A concrete Anritsu device: a 51-point sweep from 100 Hz to 200 Hz,
serving distinguishable bulk data in each of the four wire columns. -/
def aDev0 : ADev :=
  { freqStartTok := natToken 100
    freqStopTok := natToken 200
    npointsTok := intToken 51
    fmtTok := "0"
    sweepMode := .cont
    sdata1 := List.replicate 51 (7, 7)
    sdata2 := List.replicate 51 (8, 8)
    sdata2p := List.replicate 51 ((1, 0), (2, 0), (3, 0), (4, 0)) }

/-- A concrete Anritsu session on `aDev0`. -/
def aSt0 : ASt :=
  { dev := aDev0, valuesFmt := .ascii, trsEff := id, trace := [] }

/-- An Anritsu device whose three frequency queries answer the literal
tokens 100, 200 and 11. -/
def aDev11 : ADev :=
  { aDev0 with freqStartTok := "100", freqStopTok := "200", npointsTok := "11" }

/-- The Anritsu session on `aDev11`. -/
def aSt11 : ASt :=
  { aSt0 with dev := aDev11 }

/-- A concrete CMT device: a 2-point sweep from 100 Hz to 200 Hz in ASCII
format with channel 1 active, serving a nonempty raw block. -/
def cDev0 : CDev :=
  { portCountTok := natToken 2
    activeChTok := natToken 1
    fmtTok := "ASC"
    freqStartTok := natToken 100
    freqStopTok := natToken 200
    npointsTok := intToken 2
    trigSrc := "INT"
    contMode := true
    sdat := [(1, 0), (2, 0), (3, 0), (4, 0)] }

/-- A concrete CMT session on `cDev0` whose waits all finish in budget and
whose bulk query succeeds. -/
def cSt0 : CSt :=
  { dev := cDev0, valuesFmt := .ascii, waitOk := fun _ => true, waitIdx := 0,
    qvOk := true, trace := [] }

/-- The CMT session on `cDev0` whose bulk value query fails. -/
def cStQvFail : CSt :=
  { cSt0 with qvOk := false }

/-- The CMT session on `cDev0` whose completion waits all exceed their
budget. -/
def cStWaitFail : CSt :=
  { cSt0 with waitOk := fun _ => false }

/-! ### Claim theorems -/

/-- C4 counterexample: on the Anritsu driver, selecting BINARY_32 emits one
single write (`FMC`), not two writes with a byte-order command first. -/
theorem c4_counterexample :
    (aQueryFormatSet .binary32 aSt0).trace = [Act.wr "FMC"] ∧
    (aQueryFormatSet .binary32 aSt0).trace.length ≠ 2 := by
  constructor
  · rfl
  · decide

/-- C4 (amended): on the CMT driver, selecting a binary value format emits
exactly two writes with the byte-order command strictly before the width
command, and selecting ASCII emits exactly one write; on the Anritsu driver
every format selection emits exactly one write. -/
theorem c4_format_setter_writes (cst : CSt) (ast : ASt) (fmt : ValuesFormat) :
    (cQueryFormatSet .binary32 cst).trace =
      cst.trace ++ [Act.wr "FORM:BORD SWAP", Act.wr "FORM:DATA REA32"] ∧
    (cQueryFormatSet .binary64 cst).trace =
      cst.trace ++ [Act.wr "FORM:BORD SWAP", Act.wr "FORM:DATA REAL"] ∧
    (cQueryFormatSet .ascii cst).trace = cst.trace ++ [Act.wr "FORM:DATA ASC"] ∧
    (aQueryFormatSet fmt ast).trace.length = ast.trace.length + 1 := by
  refine ⟨?_, ?_, ?_, ?_⟩
  · simp [cQueryFormatSet, cwrite]
  · simp [cQueryFormatSet, cwrite]
  · simp [cQueryFormatSet, cwrite]
  · cases fmt <;> simp [aQueryFormatSet, awrite]

/-- C5: `sweep()` leaves the sweep/continuous mode exactly as it was before
the call, on both drivers, whatever the trigger command does to the
instrument in between; the trace shows the trigger steps that occurred. -/
theorem c5_sweep_preserves_mode :
    (∀ st : ASt, (aSweep st).1 = .ok () ∧
      (aSweep st).2.dev.sweepMode = st.dev.sweepMode ∧
      (aSweep st).2.trace = st.trace ++
        [Act.clr, Act.qu "SWP?", Act.wr "TRS", Act.wr (aModeTok st.dev.sweepMode)]) ∧
    (∀ st : CSt, (cSweep st).2.dev.contMode = st.dev.contMode ∧
      (cSweep st).2.trace = st.trace ++ [Act.clr, Act.wr "TRIG:SING", Act.wait]) := by
  constructor
  · intro st
    rw [aSweep_run]
    exact ⟨rfl, rfl, rfl⟩
  · intro st
    simp [cSweep, cclear, cwrite, applyWriteC, cWait]

/-- C6: for every validator kind and every native value in its declared
domain, decoding the encoding returns the value: Range validators on
in-range integers, FrequencyScale on Hz values, Membership on allowed
values, Enumeration on listed variants (given the spec-required bijection,
i.e. distinct tokens), Boolean for both truth values (given distinct
tokens). -/
theorem c6_validator_round_trip :
    (∀ (cfg : RangeCfg) (v : Int), rangeOk cfg v = true →
      (intEncode cfg v).bind (intDecode cfg) = some v) ∧
    (∀ n : Nat, freqDecodeL (freqEncodeL n) = some n) ∧
    (∀ (allowed : List Int) (v : Int), v ∈ allowed →
      (setEncode allowed v).bind (setDecode allowed) = some v) ∧
    (∀ (α : Type) [DecidableEq α] (pairs : List (α × String)),
      (pairs.map Prod.snd).Nodup → ∀ a ∈ pairs.map Prod.fst,
      (enumEncode pairs a).bind (enumDecode pairs) = some a) ∧
    (∀ (cfg : BoolCfg) (b : Bool), cfg.falseSet ≠ cfg.trueResp →
      cfg.falseSet ≠ cfg.trueSet → boolDecode cfg (boolEncode cfg b) = some b) :=
  ⟨fun _ _ h => intDecode_intEncode h,
   freqDecodeL_freqEncodeL,
   fun _ _ h => setDecode_setEncode h,
   fun _ _ pairs hs a ha => enumDecode_enumEncode pairs hs a ha,
   fun _ b h1 h2 => boolDecode_boolEncode b h1 h2⟩

/-- C6 witness: the round-trip law evaluated on one concrete validator of
each kind, taken from the drivers' declarations. -/
theorem c6_witness :
    (rangeOk ⟨some 1, some 4095, true⟩ 17 = true ∧
      (intEncode ⟨some 1, some 4095, true⟩ 17).bind
        (intDecode ⟨some 1, some 4095, true⟩) = some 17) ∧
    freqDecodeL (freqEncodeL 100) = some 100 ∧
    ((51 : Int) ∈ anritsuNpSet ∧
      (setEncode anritsuNpSet 51).bind (setDecode anritsuNpSet) = some 51) ∧
    ((aModePairs.map Prod.snd).Nodup ∧ ASweepMode.cont ∈ aModePairs.map Prod.fst ∧
      (enumEncode aModePairs .cont).bind (enumDecode aModePairs) = some .cont) ∧
    (BoolCfg.falseSet ⟨"1", "0", "N", "F"⟩ ≠ BoolCfg.trueResp ⟨"1", "0", "N", "F"⟩ ∧
      boolDecode ⟨"1", "0", "N", "F"⟩ (boolEncode ⟨"1", "0", "N", "F"⟩ false) =
        some false) :=
  ⟨⟨by decide, c6_validator_round_trip.1 ⟨some 1, some 4095, true⟩ 17 (by decide)⟩,
   c6_validator_round_trip.2.1 100,
   ⟨by decide, c6_validator_round_trip.2.2.1 anritsuNpSet 51 (by decide)⟩,
   ⟨by decide, by decide,
    c6_validator_round_trip.2.2.2.1 ASweepMode aModePairs (by decide) .cont (by decide)⟩,
   ⟨by decide, c6_validator_round_trip.2.2.2.2 ⟨"1", "0", "N", "F"⟩ false
      (by decide) (by decide)⟩⟩

/-- C10: on the Anritsu driver, `get_sdata()` is the single-port-1 call of
`get_snp_network`, and a `None` ports argument behaves exactly as the full
pair (1, 2): the same command sequence and the same result in every
session state. -/
theorem c10_get_sdata_refinement :
    (∀ st : ASt, aGetSdata st = aGetSnp (some [1]) st) ∧
    (∀ st : ASt, aGetSnp none st = aGetSnp (some [1, 2]) st) :=
  ⟨fun _ => rfl, fun _ => rfl⟩

/-- C1 counterexample: on the Anritsu driver, `get_snp_network((1, 2, 3))`
fails with ValueError -- not ConfigurationError -- and only after commands
(the frequency queries and the sweep trigger) have been sent. -/
theorem c1_counterexample :
    errOf (aGetSnp (some [1, 2, 3]) aSt0).1 = some Err.valueError ∧
    some Err.valueError ≠ some Err.configurationError ∧
    (aGetSnp (some [1, 2, 3]) aSt0).2.trace ≠ [] := by
  have h := aGetSnpPorts_invalid_run aSt0 [1, 2, 3] 100 200 51 rfl rfl rfl
    (by decide) (by decide) (by decide) (by decide) (by decide)
  refine ⟨?_, by decide, ?_⟩
  · rw [show aGetSnp (some [1, 2, 3]) aSt0 = aGetSnpPorts [1, 2, 3] aSt0 from rfl, h]
    rfl
  · rw [show aGetSnp (some [1, 2, 3]) aSt0 = aGetSnpPorts [1, 2, 3] aSt0 from rfl, h]
    simp

/-- C1 (amended): for a ports argument that is neither a supported
single-port list nor the full pair, the Anritsu driver fails with
ValueError after having issued the three frequency queries and the four
sweep commands; the CMT driver performs no port validation at all and the
same call completes successfully. -/
theorem c1_invalid_ports (ast : ASt) (cst : CSt) (ports : List Nat)
    (n1 n2 m1 m2 : Nat) (np mp : Int)
    (ha1 : ast.dev.freqStartTok = natToken n1)
    (ha2 : ast.dev.freqStopTok = natToken n2)
    (ha3 : ast.dev.npointsTok = intToken np)
    (hnp : np ∈ anritsuNpSet)
    (hp1 : ports ≠ [1]) (hp2 : ports ≠ [2])
    (hp3 : ports ≠ [1, 2]) (hp4 : ports ≠ [2, 1])
    (hch : cst.dev.activeChTok = natToken 1)
    (hcf : cst.dev.fmtTok = "ASC")
    (hc1 : cst.dev.freqStartTok = natToken m1)
    (hc2 : cst.dev.freqStopTok = natToken m2)
    (hc3 : cst.dev.npointsTok = intToken mp)
    (hmp : 0 ≤ mp)
    (hw0 : cst.waitOk cst.waitIdx = true)
    (hw1 : cst.waitOk (cst.waitIdx + 1) = true)
    (hqv : cst.qvOk = true) :
    errOf (aGetSnpPorts ports ast).1 = some Err.valueError ∧
    (aGetSnpPorts ports ast).2.trace = ast.trace ++
      [Act.qu "STR?", Act.qu "STP?", Act.qu "ONP", Act.clr, Act.qu "SWP?",
       Act.wr "TRS", Act.wr (aModeTok ast.dev.sweepMode)] ∧
    isOkE (cGetSnp (some ports) cst).1 = true := by
  rw [aGetSnpPorts_invalid_run ast ports n1 n2 np ha1 ha2 ha3 hnp hp1 hp2 hp3 hp4,
    cGetSnp_ok_run cst ports m1 m2 mp hch hcf hc1 hc2 hc3 hmp hw0 hw1 hqv]
  exact ⟨rfl, rfl, rfl⟩

/-- C1 witness: the amended statement at `ports = [1, 2, 3]` on the concrete
sessions. -/
theorem c1_witness :
    (((51 : Int) ∈ anritsuNpSet) ∧ ([1, 2, 3] : List Nat) ≠ [1] ∧
      ([1, 2, 3] : List Nat) ≠ [2] ∧ ([1, 2, 3] : List Nat) ≠ [1, 2] ∧
      ([1, 2, 3] : List Nat) ≠ [2, 1] ∧ (0 : Int) ≤ 2 ∧
      cSt0.waitOk cSt0.waitIdx = true ∧ cSt0.qvOk = true) ∧
    (errOf (aGetSnpPorts [1, 2, 3] aSt0).1 = some Err.valueError ∧
      (aGetSnpPorts [1, 2, 3] aSt0).2.trace = aSt0.trace ++
        [Act.qu "STR?", Act.qu "STP?", Act.qu "ONP", Act.clr, Act.qu "SWP?",
         Act.wr "TRS", Act.wr (aModeTok aSt0.dev.sweepMode)] ∧
      isOkE (cGetSnp (some [1, 2, 3]) cSt0).1 = true) :=
  ⟨⟨by decide, by decide, by decide, by decide, by decide, by decide, rfl, rfl⟩,
   c1_invalid_ports aSt0 cSt0 [1, 2, 3] 100 200 100 200 51 2
     rfl rfl rfl (by decide) (by decide) (by decide) (by decide) (by decide)
     rfl rfl rfl rfl rfl (by decide) rfl rfl rfl⟩

/-- C3 counterexample: on the CMT driver, when the bulk value query fails,
the error propagates with no restoration: the format captured at entry was
ASCII, yet the cached format is left at BINARY_64, the device trigger
source is left at BUS, and no `TRIG:SOUR INT` write appears in the trace. -/
theorem c3_counterexample :
    errOf (cGetSnp (some [1, 2]) cStQvFail).1 = some Err.ioError ∧
    cFmtClassify cStQvFail.dev.fmtTok cStQvFail.valuesFmt = .ascii ∧
    (cGetSnp (some [1, 2]) cStQvFail).2.valuesFmt = .binary64 ∧
    Act.wr "TRIG:SOUR INT" ∉ (cGetSnp (some [1, 2]) cStQvFail).2.trace ∧
    (cGetSnp (some [1, 2]) cStQvFail).2.dev.trigSrc = "BUS" := by
  have h := cGetSnp_qvfail_run cStQvFail [1, 2] 100 200 2 rfl rfl rfl rfl
    (by decide) rfl rfl
  rw [h]
  refine ⟨rfl, rfl, rfl, ?_, rfl⟩
  show Act.wr "TRIG:SOUR INT" ∉ cStQvFail.trace ++ _
  decide

/-- C3 (amended): on the CMT driver the value format captured at entry and
the internal trigger source are restored on the success path, whatever the
entry format was: the cached format returns to the captured classification
and a subsequent format query reports it again.  But when the
sweep-completion wait exceeds its budget (Timeout) or the bulk value query
fails, the error propagates with the cached and device format left at
BINARY_64 and the trigger source left at BUS, no restoring command being
sent.  The Anritsu pipeline never changes the cached value format (and its
command set has no trigger-source commands at all). -/
theorem c3_restoration (cst cqst cwst : CSt)
    (ports qports wports : List Nat)
    (m1 m2 k1 k2 j1 j2 : Nat) (mp kp jp : Int)
    (hch : cst.dev.activeChTok = natToken 1)
    (hc1 : cst.dev.freqStartTok = natToken m1)
    (hc2 : cst.dev.freqStopTok = natToken m2)
    (hc3 : cst.dev.npointsTok = intToken mp)
    (hmp : 0 ≤ mp)
    (hw0 : cst.waitOk cst.waitIdx = true)
    (hw1 : cst.waitOk (cst.waitIdx + 1) = true)
    (hqv : cst.qvOk = true)
    (gch : cqst.dev.activeChTok = natToken 1)
    (gc1 : cqst.dev.freqStartTok = natToken k1)
    (gc2 : cqst.dev.freqStopTok = natToken k2)
    (gc3 : cqst.dev.npointsTok = intToken kp)
    (gkp : 0 ≤ kp)
    (gw0 : cqst.waitOk cqst.waitIdx = true)
    (gqv : cqst.qvOk = false)
    (wch : cwst.dev.activeChTok = natToken 1)
    (wc1 : cwst.dev.freqStartTok = natToken j1)
    (wc2 : cwst.dev.freqStopTok = natToken j2)
    (wc3 : cwst.dev.npointsTok = intToken jp)
    (wjp : 0 ≤ jp)
    (ww0 : cwst.waitOk cwst.waitIdx = false) :
    (isOkE (cGetSnp (some ports) cst).1 = true ∧
      (cGetSnp (some ports) cst).2.valuesFmt =
        cFmtClassify cst.dev.fmtTok cst.valuesFmt ∧
      cFmtClassify (cGetSnp (some ports) cst).2.dev.fmtTok
          (cGetSnp (some ports) cst).2.valuesFmt =
        cFmtClassify cst.dev.fmtTok cst.valuesFmt ∧
      (cGetSnp (some ports) cst).2.dev.trigSrc = "INT" ∧
      (cGetSnp (some ports) cst).2.trace = cst.trace ++
        [Act.qu "FORM:DATA?", Act.wr "FORM:BORD SWAP", Act.wr "FORM:DATA REAL",
         Act.qu "FORM:DATA?", Act.qu "SERV:CHAN:ACT?", Act.qu "SENS1:FREQ:STAR?",
         Act.qu "SENS1:FREQ:STOP?", Act.qu "SENS1:SWE:POIN?",
         Act.wr "TRIG:SOUR BUS", Act.clr, Act.wr "TRIG:SING", Act.wait,
         Act.quVals "CALC1:DATA:SDAT?", Act.wait] ++
        fmtSetWrites (cFmtClassify cst.dev.fmtTok cst.valuesFmt) ++
        [Act.wr "TRIG:SOUR INT"]) ∧
    (errOf (cGetSnp (some qports) cqst).1 = some Err.ioError ∧
      (cGetSnp (some qports) cqst).2.valuesFmt = .binary64 ∧
      (cGetSnp (some qports) cqst).2.dev.trigSrc = "BUS" ∧
      (cGetSnp (some qports) cqst).2.trace = cqst.trace ++
        [Act.qu "FORM:DATA?", Act.wr "FORM:BORD SWAP", Act.wr "FORM:DATA REAL",
         Act.qu "FORM:DATA?", Act.qu "SERV:CHAN:ACT?", Act.qu "SENS1:FREQ:STAR?",
         Act.qu "SENS1:FREQ:STOP?", Act.qu "SENS1:SWE:POIN?",
         Act.wr "TRIG:SOUR BUS", Act.clr, Act.wr "TRIG:SING", Act.wait,
         Act.quVals "CALC1:DATA:SDAT?"]) ∧
    (errOf (cGetSnp (some wports) cwst).1 = some Err.timeout ∧
      (cGetSnp (some wports) cwst).2.valuesFmt = .binary64 ∧
      (cGetSnp (some wports) cwst).2.dev.trigSrc = "BUS" ∧
      (cGetSnp (some wports) cwst).2.trace = cwst.trace ++
        [Act.qu "FORM:DATA?", Act.wr "FORM:BORD SWAP", Act.wr "FORM:DATA REAL",
         Act.qu "FORM:DATA?", Act.qu "SERV:CHAN:ACT?", Act.qu "SENS1:FREQ:STAR?",
         Act.qu "SENS1:FREQ:STOP?", Act.qu "SENS1:SWE:POIN?",
         Act.wr "TRIG:SOUR BUS", Act.clr, Act.wr "TRIG:SING", Act.wait]) ∧
    (∀ (ps : List Nat) (ast : ASt),
      (aGetSnpPorts ps ast).2.valuesFmt = ast.valuesFmt) := by
  rw [cGetSnp_ok_run_gen cst ports m1 m2 mp hch hc1 hc2 hc3 hmp hw0 hw1 hqv,
    cGetSnp_qvfail_run cqst qports k1 k2 kp gch gc1 gc2 gc3 gkp gw0 gqv,
    cGetSnp_waitfail_run cwst wports j1 j2 jp wch wc1 wc2 wc3 wjp ww0]
  refine ⟨⟨rfl, rfl, ?_, rfl, rfl⟩, ⟨rfl, rfl, rfl, rfl⟩,
    ⟨rfl, rfl, rfl, rfl⟩, aGetSnpPorts_fmt⟩
  exact cFmtClassify_fmtDevTok _ _

/-- C3 witness: the amended statement on the concrete all-success session,
the concrete failing-bulk-query session and the concrete timed-out-wait
session (the entry format capture on all three classifies to ASCII). -/
theorem c3_witness :
    ((0 : Int) ≤ 2 ∧ cSt0.waitOk cSt0.waitIdx = true ∧ cSt0.qvOk = true ∧
      cStQvFail.qvOk = false ∧
      cStWaitFail.waitOk cStWaitFail.waitIdx = false) ∧
    (cFmtClassify cSt0.dev.fmtTok cSt0.valuesFmt = .ascii ∧
      isOkE (cGetSnp (some [1, 2]) cSt0).1 = true ∧
      (cGetSnp (some [1, 2]) cSt0).2.valuesFmt =
        cFmtClassify cSt0.dev.fmtTok cSt0.valuesFmt ∧
      (cGetSnp (some [1, 2]) cSt0).2.dev.trigSrc = "INT" ∧
      errOf (cGetSnp (some [1, 2]) cStQvFail).1 = some Err.ioError ∧
      (cGetSnp (some [1, 2]) cStQvFail).2.valuesFmt = .binary64 ∧
      (cGetSnp (some [1, 2]) cStQvFail).2.dev.trigSrc = "BUS" ∧
      errOf (cGetSnp (some [1, 2]) cStWaitFail).1 = some Err.timeout ∧
      (cGetSnp (some [1, 2]) cStWaitFail).2.valuesFmt = .binary64 ∧
      (cGetSnp (some [1, 2]) cStWaitFail).2.dev.trigSrc = "BUS") := by
  have h := c3_restoration cSt0 cStQvFail cStWaitFail [1, 2] [1, 2] [1, 2]
    100 200 100 200 100 200 2 2 2
    rfl rfl rfl rfl (by decide) rfl rfl rfl
    rfl rfl rfl rfl (by decide) rfl rfl
    rfl rfl rfl rfl (by decide) rfl
  exact ⟨⟨by decide, rfl, rfl, rfl, rfl⟩,
    by decide, h.1.1, h.1.2.1, h.1.2.2.2.1,
    h.2.1.1, h.2.1.2.1, h.2.1.2.2.1,
    h.2.2.1.1, h.2.2.1.2.1, h.2.2.1.2.2.1⟩

/-- C7 counterexample: the Anritsu `frequency` setter applied to a sweep
with 11 points (a valid FrequencySweep) fails the point-count membership
validation after only the start and stop writes; it does not issue three
writes. -/
theorem c7_counterexample :
    (aFrequencySet ⟨100, 200, 11, .hz⟩ aSt0).1 = .error Err.validationError ∧
    (aFrequencySet ⟨100, 200, 11, .hz⟩ aSt0).2.trace =
      [Act.wr ("STR " ++ natToken 100), Act.wr ("STP " ++ natToken 200)] := by
  have he : setEncode anritsuNpSet (11 : Int) = none := by decide
  constructor
  · simp [aFrequencySet, he, awrite]
  · simp [aFrequencySet, he, awrite, aSt0]

/-- C7 (amended): the CMT `frequency` setter always issues exactly three
writes, in order start, stop, point count, with the encoded tokens matching
the assigned values; the Anritsu setter does the same provided the point
count lies in the validator's membership set, and otherwise stops after the
first two writes. -/
theorem c7_frequency_setter_writes (cst : CSt) (ast : ASt)
    (f g : FrequencySweep) (hg : g.npoints ∈ anritsuNpSet) :
    ((cFrequencySet f cst).1 = .ok () ∧
      (cFrequencySet f cst).2.trace = cst.trace ++
        [Act.wr ("SENS1:FREQ:STAR " ++ natToken f.start),
         Act.wr ("SENS1:FREQ:STOP " ++ natToken f.stop),
         Act.wr ("SENS1:SWE:POIN " ++ intToken f.npoints)]) ∧
    ((aFrequencySet g ast).1 = .ok () ∧
      (aFrequencySet g ast).2.trace = ast.trace ++
        [Act.wr ("STR " ++ natToken g.start),
         Act.wr ("STP " ++ natToken g.stop),
         Act.wr ("NP " ++ intToken g.npoints)]) := by
  have hce : intEncode cmtNpRange f.npoints = some (intTokenL f.npoints) := by
    simp [intEncode, rangeOk, cmtNpRange]
  have hae : setEncode anritsuNpSet g.npoints = some (intTokenL g.npoints) := by
    simp [setEncode, hg]
  refine ⟨⟨?_, ?_⟩, ?_, ?_⟩ <;>
    simp [cFrequencySet, aFrequencySet, hce, hae, cwrite, awrite, intToken]

/-- C7 witness: the amended statement on the concrete sessions, with a
2-point CMT sweep assignment and a 51-point Anritsu sweep assignment. -/
theorem c7_witness :
    ((51 : Int) ∈ anritsuNpSet) ∧
    ((cFrequencySet ⟨100, 200, 11, .hz⟩ cSt0).1 = .ok () ∧
      (cFrequencySet ⟨100, 200, 11, .hz⟩ cSt0).2.trace = cSt0.trace ++
        [Act.wr ("SENS1:FREQ:STAR " ++ natToken 100),
         Act.wr ("SENS1:FREQ:STOP " ++ natToken 200),
         Act.wr ("SENS1:SWE:POIN " ++ intToken 11)]) ∧
    ((aFrequencySet ⟨100, 200, 51, .hz⟩ aSt0).1 = .ok () ∧
      (aFrequencySet ⟨100, 200, 51, .hz⟩ aSt0).2.trace = aSt0.trace ++
        [Act.wr ("STR " ++ natToken 100), Act.wr ("STP " ++ natToken 200),
         Act.wr ("NP " ++ intToken 51)]) := by
  have h := c7_frequency_setter_writes cSt0 aSt0 ⟨100, 200, 11, .hz⟩
    ⟨100, 200, 51, .hz⟩ (by decide)
  exact ⟨by decide, h.1, h.2⟩

/-- C8: each `query_format` getter issues exactly one query; recognized
tokens map to the corresponding format value, and any other token leaves
the previously cached format as the result, with no error and no invented
value. -/
theorem c8_format_getter (cst : CSt) (ast : ASt) :
    ((cQueryFormatGet cst).2.trace = cst.trace ++ [Act.qu "FORM:DATA?"]) ∧
    ((aQueryFormatGet ast).2.trace = ast.trace ++ [Act.qu "FMX?"]) ∧
    (cst.dev.fmtTok = "ASC" → (cQueryFormatGet cst).1 = .ascii) ∧
    (cst.dev.fmtTok = "REAL32" → (cQueryFormatGet cst).1 = .binary32) ∧
    (cst.dev.fmtTok = "REAL" → (cQueryFormatGet cst).1 = .binary64) ∧
    (cst.dev.fmtTok ≠ "ASC" → cst.dev.fmtTok ≠ "REAL32" →
      cst.dev.fmtTok ≠ "REAL" →
      (cQueryFormatGet cst).1 = cst.valuesFmt ∧
      (cQueryFormatGet cst).2.valuesFmt = cst.valuesFmt) ∧
    (ast.dev.fmtTok = "0" → (aQueryFormatGet ast).1 = .ascii) ∧
    (ast.dev.fmtTok = "2" → (aQueryFormatGet ast).1 = .binary32) ∧
    (ast.dev.fmtTok = "1" → (aQueryFormatGet ast).1 = .binary64) ∧
    (ast.dev.fmtTok ≠ "0" → ast.dev.fmtTok ≠ "2" → ast.dev.fmtTok ≠ "1" →
      (aQueryFormatGet ast).1 = ast.valuesFmt ∧
      (aQueryFormatGet ast).2.valuesFmt = ast.valuesFmt) := by
  refine ⟨?_, ?_, ?_, ?_, ?_, ?_, ?_, ?_, ?_, ?_⟩
  · simp [cQueryFormatGet, cquery]
  · simp [aQueryFormatGet, aquery]
  · intro h
    simp [cQueryFormatGet, cquery, respondC, cFmtClassify, h]
  · intro h
    simp [cQueryFormatGet, cquery, respondC, cFmtClassify, h]
  · intro h
    simp [cQueryFormatGet, cquery, respondC, cFmtClassify, h]
  · intro h1 h2 h3
    constructor <;> simp [cQueryFormatGet, cquery, respondC, cFmtClassify, h1, h2, h3]
  · intro h
    simp [aQueryFormatGet, aquery, respondA, h]
  · intro h
    simp [aQueryFormatGet, aquery, respondA, h]
  · intro h
    simp [aQueryFormatGet, aquery, respondA, h]
  · intro h1 h2 h3
    constructor <;> simp [aQueryFormatGet, aquery, respondA, h1, h2, h3]

/-- A CMT session whose device reports an unrecognized format token. -/
def cStJunk : CSt :=
  { cSt0 with dev := { cDev0 with fmtTok := "junk" } }

/-- An Anritsu session whose device reports an unrecognized format token. -/
def aStJunk : ASt :=
  { aSt0 with dev := { aDev0 with fmtTok := "junk" } }

/-- C8 witness: the getters on devices reporting an unrecognized format
token keep and return the cached format. -/
theorem c8_witness :
    (cStJunk.dev.fmtTok ≠ "ASC" ∧ cStJunk.dev.fmtTok ≠ "REAL32" ∧
      cStJunk.dev.fmtTok ≠ "REAL" ∧ aStJunk.dev.fmtTok ≠ "0" ∧
      aStJunk.dev.fmtTok ≠ "2" ∧ aStJunk.dev.fmtTok ≠ "1") ∧
    ((cQueryFormatGet cStJunk).1 = cStJunk.valuesFmt ∧
      (cQueryFormatGet cStJunk).2.valuesFmt = cStJunk.valuesFmt ∧
      (aQueryFormatGet aStJunk).1 = aStJunk.valuesFmt ∧
      (aQueryFormatGet aStJunk).2.valuesFmt = aStJunk.valuesFmt) := by
  have h := c8_format_getter cStJunk aStJunk
  have hc := h.2.2.2.2.2.1 (by decide) (by decide) (by decide)
  have ha := h.2.2.2.2.2.2.2.2.2 (by decide) (by decide) (by decide)
  exact ⟨⟨by decide, by decide, by decide, by decide, by decide, by decide⟩,
    hc.1, hc.2, ha.1, ha.2⟩

deriving instance DecidableEq for Except

/-- C9 counterexample: when the Anritsu driver's three frequency queries
answer the tokens 100, 200 and 11, the getter does not yield
FrequencySweep(100, 200, 11, Hz): the point-count token 11 is outside the
membership validator's set and the getter fails with ProtocolError. -/
theorem c9_counterexample :
    (aFrequencyGet aSt11).1 = .error Err.protocolError ∧
    (aFrequencyGet aSt11).1 ≠ .ok ⟨100, 200, 11, .hz⟩ := by
  constructor <;> decide

/-- C9 (amended): each `frequency` getter issues exactly its three queries
in order (start, stop, point count) and assembles the decoded responses
into a FrequencySweep in Hz; on the CMT driver responses 100, 200, 11 yield
FrequencySweep(100, 200, 11, Hz), while the Anritsu driver additionally
requires the point-count response to lie in its membership set. -/
theorem c9_frequency_getter (cst : CSt) (ast : ASt) (m1 m2 n1 n2 : Nat)
    (mp np : Int)
    (hc1 : cst.dev.freqStartTok = natToken m1)
    (hc2 : cst.dev.freqStopTok = natToken m2)
    (hc3 : cst.dev.npointsTok = intToken mp)
    (ha1 : ast.dev.freqStartTok = natToken n1)
    (ha2 : ast.dev.freqStopTok = natToken n2)
    (ha3 : ast.dev.npointsTok = intToken np)
    (hnp : np ∈ anritsuNpSet) :
    cFrequencyGet cst = (.ok ⟨m1, m2, mp, .hz⟩, { cst with trace := cst.trace ++
      [Act.qu "SENS1:FREQ:STAR?", Act.qu "SENS1:FREQ:STOP?",
       Act.qu "SENS1:SWE:POIN?"] }) ∧
    aFrequencyGet ast = (.ok ⟨n1, n2, np, .hz⟩, { ast with trace := ast.trace ++
      [Act.qu "STR?", Act.qu "STP?", Act.qu "ONP"] }) :=
  ⟨cFrequencyGet_run cst m1 m2 mp hc1 hc2 hc3,
   aFrequencyGet_run ast n1 n2 np ha1 ha2 ha3 hnp⟩

/-- The concrete CMT session whose frequency queries answer 100, 200, 11. -/
def cSt11 : CSt :=
  { cSt0 with dev := { cDev0 with npointsTok := intToken 11 } }

/-- C9 witness: the amended statement on concrete sessions; the rendered
tokens are literally "100", "200" and "11". -/
theorem c9_witness :
    (((51 : Int) ∈ anritsuNpSet) ∧ natToken 100 = "100" ∧
      natToken 200 = "200" ∧ intToken 11 = "11") ∧
    (cFrequencyGet cSt11 = (.ok ⟨100, 200, 11, .hz⟩,
        { cSt11 with trace := cSt11.trace ++
          [Act.qu "SENS1:FREQ:STAR?", Act.qu "SENS1:FREQ:STOP?",
           Act.qu "SENS1:SWE:POIN?"] }) ∧
      aFrequencyGet aSt0 = (.ok ⟨100, 200, 51, .hz⟩,
        { aSt0 with trace := aSt0.trace ++
          [Act.qu "STR?", Act.qu "STP?", Act.qu "ONP"] })) := by
  have h := c9_frequency_getter cSt11 aSt0 100 200 100 200 11 51
    rfl rfl rfl rfl rfl rfl (by decide)
  refine ⟨⟨by decide, ?_, ?_, ?_⟩, h.1, h.2⟩
  · simp [natToken, natTokenL, digChar]
  · simp [natToken, natTokenL, digChar]
  · simp [intToken, intTokenL, natTokenL, digChar]

/-- C2 (evaluation at the failing input, with the working cases alongside):
the CMT pipeline returns the tensor still fully uninitialized (the function
that is `none` everywhere) although the device served a nonempty raw block;
the Anritsu single-port-2 request fails with an out-of-bounds IndexError on
its 1-by-1 tensor; and where the scatter code does run -- the Anritsu full
pair -- the four wire columns S11, S22, S12, S21 land at tensor positions
[0,0], [1,1], [0,1], [1,0] for every frequency index. -/
theorem c2_scatter_evaluation :
    ((cGetSnp (some [1, 2]) cSt0).1 =
        .ok { freq := ⟨100, 200, 2, .hz⟩, dim := 2, s := fun _ _ _ => none } ∧
      cSt0.dev.sdat ≠ []) ∧
    errOf (aGetSnp (some [2]) aSt0).1 = some Err.indexError ∧
    ((aGetSnp (some [1, 2]) aSt0).1.toOption.map
        (fun nt => (nt.s 0 0 0, nt.s 0 1 1, nt.s 0 0 1, nt.s 0 1 0)) =
      some (some (1, 0), some (2, 0), some (3, 0), some (4, 0))) := by
  have hf := aFrequencyGet_run aSt0 100 200 51 rfl rfl rfl (by decide)
  refine ⟨⟨?_, by decide⟩, ?_, ?_⟩
  · rw [cGetSnp_ok_run cSt0 [1, 2] 100 200 2 rfl rfl rfl rfl rfl (by decide)
      rfl rfl rfl]
    rfl
  · rw [show aGetSnp (some [2]) aSt0 = aGetSnpPorts [2] aSt0 from rfl]
    unfold aGetSnpPorts
    rw [hf]
    dsimp only
    rw [if_neg (show ¬ (51 : Int) < 0 by norm_num), aSweep_run]
    dsimp only
    simp [aqueryVals1, setSParam, errOf]
  · rw [show aGetSnp (some [1, 2]) aSt0 = aGetSnpPorts [1, 2] aSt0 from rfl]
    unfold aGetSnpPorts
    rw [hf]
    dsimp only
    rw [if_neg (show ¬ (51 : Int) < 0 by norm_num), aSweep_run]
    dsimp only
    simp [aqueryVals1, aqueryVals4, setSParam, aSt0, aDev0]
    decide

end Skrf
